import Mathlib

/-!
Shallow embedding of the authentication core of the repository
(`src/core/security.py`, `src/core/auth.py`, and the principal lookup seam
of `src/repositories/users/user_repository.py`), together with theorems
settling the frozen claims about it.

Modelling conventions:
* Python `dict` payloads become association lists over `ClaimValue`
  (`int` / `str` / Python `None`); `dictSet` preserves insertion order the
  way Python assignment does, `dictGet` mirrors `dict.get` returning `None`
  for absent keys.
* The process clock is in whole epoch seconds (`Nat`); `python-jose`
  compares expiry at second granularity (`timegm(utcnow().utctimetuple())`),
  and `create_access_token` stores `int(expire.timestamp())`.
* A JWT is either a structurally malformed blob or a compact triple
  (header algorithm, payload, signature).  The HMAC is modelled
  symbolically: an injective tag of key, algorithm and payload
  (Dolev-Yao-style idealisation of HS256; collisions are not modelled).
* `jwt.decode` from `python-jose` checks, in order: the header algorithm
  against the allowed list, the signature against the configured key, and
  then the default registered-claim validation of `_validate_claims` at
  this call site (`audience`, `issuer`, `subject` and `access_token` all
  `None`): `iat`, `nbf` and `exp` are coerced through Python `int(...)`
  (so integer-shaped strings are accepted and anything else raises
  `JWTClaimsError`), a future `nbf` raises `ImmatureSignatureError`, an
  expiry strictly in the past raises `ExpiredSignatureError`, any present
  `aud` or `at_hash` raises, and a present `sub` or `jti` must be a
  string — the `sub` check being the `JWTClaimsError` that the comment in
  `create_access_token` works around by coercing numeric ids.
* bcrypt (via passlib's `CryptContext`) is modelled as a salted
  deterministic one-way function over the input truncated to 72 characters
  (bcrypt's 72-byte limit); the digest is an abstract injective encoding.
  The modular-crypt hash string is kept in parsed form (`BcryptHash`);
  the empty hash string of the Python code is `Option.none`.
-/

deriving instance DecidableEq for Except

/-- A JSON claim value as used by the token payloads: Python `int`,
`str`, or `None`. -/
inductive ClaimValue where
  | int (n : Int)
  | str (s : String)
  | null
  deriving DecidableEq, Repr

/-- A claims payload: an insertion-ordered Python `dict` as an
association list. -/
def Claims : Type := List (String × ClaimValue)

instance : DecidableEq Claims := by
  unfold Claims
  infer_instance

/-- Lookup of a key in a claims dict (`d[k]` / `k in d`). -/
def dictLookup (k : String) : Claims → Option ClaimValue
  | [] => none
  | (k', v) :: rest => if k' = k then some v else dictLookup k rest

/-- `d.get(k)`: returns Python `None` when the key is absent. -/
def dictGet (k : String) (c : Claims) : ClaimValue :=
  (dictLookup k c).getD .null

/-- Python dict assignment `d[k] = v`: replaces the value in place when the
key exists, appends otherwise (insertion order preserved). -/
def dictSet (k : String) (v : ClaimValue) : Claims → Claims
  | [] => [(k, v)]
  | (k', v') :: rest => if k' = k then (k', v) :: rest else (k', v') :: dictSet k v rest

/-- Python `str(...)` on a claim value. -/
def pyStr : ClaimValue → String
  | .int n => toString n
  | .str s => s
  | .null => "None"

/-- Python whitespace (the characters stripped by `str.strip()` and
ignored around an `int(...)` literal); the ASCII set — Unicode spaces,
accepted by Python, are outside this ASCII model. -/
def isPySpace (c : Char) : Bool :=
  c = ' ' || c = '\t' || c = '\n' || c = '\x0d' || c = '\x0b' || c = '\x0c'

/-- Python `s.strip()`: remove leading and trailing whitespace. -/
def pyStrip (s : String) : String :=
  ⟨((s.data.dropWhile isPySpace).reverse.dropWhile isPySpace).reverse⟩

/-- An ASCII decimal digit, with its value. -/
def pyDigit (c : Char) : Option Nat :=
  if '0' ≤ c && c ≤ '9' then some (c.toNat - '0'.toNat) else none

/-- Digits after the first one of a Python `int` literal: `(['_'] digit)*`
— a single underscore is allowed between digits, never leading, trailing
or doubled. -/
def pyIntRest (acc : Nat) : List Char → Option Nat
  | [] => some acc
  | '_' :: c :: cs =>
    match pyDigit c with
    | some d => pyIntRest (acc * 10 + d) cs
    | none => none
  | '_' :: [] => none
  | c :: cs =>
    match pyDigit c with
    | some d => pyIntRest (acc * 10 + d) cs
    | none => none

/-- The digit part of a Python `int` literal: at least one digit, then
`pyIntRest`. -/
def pyIntCore : List Char → Option Nat
  | [] => none
  | c :: cs =>
    match pyDigit c with
    | some d => pyIntRest d cs
    | none => none

/-- Python `int(s)` on a string: optional surrounding whitespace, an
optional sign, then a base-10 digit sequence with single underscores
allowed between digits — `int("+5")`, `int(" 5 ")` and `int("5_0")`
succeed; `int("")`, `int("5.0")`, `int("_5")`, `int("5_")` and
`int("5__0")` raise `ValueError`.  Non-ASCII decimal digits, accepted by
Python, are outside this ASCII model. -/
def pyIntOfString (s : String) : Option Int :=
  match (pyStrip s).data with
  | '+' :: rest => (pyIntCore rest).map Int.ofNat
  | '-' :: rest => (pyIntCore rest).map (fun m => -(Int.ofNat m))
  | l => (pyIntCore l).map Int.ofNat

namespace settings

/-- `Settings.SECRET_KEY` default from `src/core/config.py`. -/
def SECRET_KEY : String := "your-secret-key-change-in-production"

/-- `Settings.ALGORITHM` default from `src/core/config.py`. -/
def ALGORITHM : String := "HS256"

/-- `Settings.ACCESS_TOKEN_EXPIRE_MINUTES` default from `src/core/config.py`. -/
def ACCESS_TOKEN_EXPIRE_MINUTES : Nat := 30

end settings

/-- Injective string encoding of a claim value (component of the symbolic
MAC). -/
def encodeClaimValue : ClaimValue → String
  | .int n => "i:" ++ toString n
  | .str s => "s:" ++ s
  | .null => "z"

/-- Injective string encoding of a payload (component of the symbolic MAC). -/
def encodeClaims : Claims → String
  | [] => ""
  | (k, v) :: rest => k ++ "=" ++ encodeClaimValue v ++ ";" ++ encodeClaims rest

/-- Symbolic model of the HMAC signature over the compact serialization:
a deterministic tag of the key, the header algorithm and the payload. -/
def macSign (secret alg : String) (payload : Claims) : String :=
  secret ++ "|" ++ alg ++ "|" ++ encodeClaims payload

/-- The decoded form of a compact three-segment JWS: header algorithm,
payload claims, and signature segment. -/
structure Token where
  alg : String
  payload : Claims
  sig : String
  deriving DecidableEq

/-- A wire-format token: either a structurally malformed blob (anything
that does not parse as `header.payload.signature`) or a compact token. -/
inductive TokenWire where
  | malformed (raw : String)
  | compact (t : Token)
  deriving DecidableEq

/-- Error taxonomy of `python-jose`: generic `JWTError`,
`JWTClaimsError`, `ExpiredSignatureError`, `ImmatureSignatureError`.
All are `JWTError` subclasses, so `verify_access_token` catches every
one of them. -/
inductive JoseError where
  | jwt
  | claims
  | expired
  | immature
  deriving DecidableEq

/-- Python `int(...)` coercion as jose applies it to the numeric
registered claims (`iat`, `nbf`, `exp`): an integer passes through, a
string parses as a Python `int` literal, `None` fails (`int(None)`
raises; the raise is modelled as a coercion failure). -/
def pyIntCoerce : ClaimValue → Option Int
  | .int n => some n
  | .str s => pyIntOfString s
  | .null => none

/-- `_validate_iat`: a present `iat` must be `int()`-coercible (its value
is not otherwise checked). -/
def validateIat (p : Claims) : Except JoseError Unit :=
  match dictLookup "iat" p with
  | none => .ok ()
  | some v =>
    match pyIntCoerce v with
    | some _ => .ok ()
    | none => .error .claims

/-- `_validate_nbf`: a present `nbf` must be `int()`-coercible and not in
the future (`nbf > now` raises `ImmatureSignatureError`; leeway is 0). -/
def validateNbf (now : Nat) (p : Claims) : Except JoseError Unit :=
  match dictLookup "nbf" p with
  | none => .ok ()
  | some v =>
    match pyIntCoerce v with
    | none => .error .claims
    | some nbf => if (now : Int) < nbf then .error .immature else .ok ()

/-- `_validate_exp`: a present `exp` must be `int()`-coercible and not in
the past (`exp < now` raises `ExpiredSignatureError`; leeway is 0). -/
def validateExp (now : Nat) (p : Claims) : Except JoseError Unit :=
  match dictLookup "exp" p with
  | none => .ok ()
  | some v =>
    match pyIntCoerce v with
    | none => .error .claims
    | some e => if e < (now : Int) then .error .expired else .ok ()

/-- `_validate_aud` at this call site (`audience=None`): an absent `aud`
is fine, but any present `aud` is rejected — after the format checks,
`audience not in audience_claims` always holds for `None`, raising
`JWTClaimsError("Invalid audience")`. -/
def validateAud (p : Claims) : Except JoseError Unit :=
  match dictLookup "aud" p with
  | none => .ok ()
  | some _ => .error .claims

/-- `_validate_sub` at this call site (`subject=None`): a present `sub`
must be a string (`isinstance(claims["sub"], str)`) — the very
`JWTClaimsError` the comment at `src/core/security.py:29` warns about for
numeric ids; no subject equality is checked. -/
def validateSub (p : Claims) : Except JoseError Unit :=
  match dictLookup "sub" p with
  | none => .ok ()
  | some (.str _) => .ok ()
  | some _ => .error .claims

/-- `_validate_jti`: a present `jti` must be a string. -/
def validateJti (p : Claims) : Except JoseError Unit :=
  match dictLookup "jti" p with
  | none => .ok ()
  | some (.str _) => .ok ()
  | some _ => .error .claims

/-- `_validate_at_hash` at this call site (`access_token=None`): any
present `at_hash` raises (`No access_token provided to compare against
at_hash claim.`). -/
def validateAtHash (p : Claims) : Except JoseError Unit :=
  match dictLookup "at_hash" p with
  | none => .ok ()
  | some _ => .error .claims

/-- `_validate_claims(claims, audience=None, issuer=None, subject=None,
access_token=None, options=defaults)`: the default validators in source
order — iat, nbf, exp, aud, iss (skipped entirely when `issuer` is
`None`), sub, jti, at_hash — stopping at the first raise. -/
def validateClaims (now : Nat) (p : Claims) : Except JoseError Unit :=
  match validateIat p with
  | .error e => .error e
  | .ok _ =>
    match validateNbf now p with
    | .error e => .error e
    | .ok _ =>
      match validateExp now p with
      | .error e => .error e
      | .ok _ =>
        match validateAud p with
        | .error e => .error e
        | .ok _ =>
          match validateSub p with
          | .error e => .error e
          | .ok _ =>
            match validateJti p with
            | .error e => .error e
            | .ok _ => validateAtHash p

/-- Model of `jose.jwt.decode(token, key, algorithms=[...])` at clock
`now` (epoch seconds): checks the header algorithm and the signature
(`jws.verify`), then runs the default registered-claim validation. -/
def jwtDecode (secret : String) (algorithms : List String) (now : Nat) :
    TokenWire → Except JoseError Claims
  | .malformed _ => .error .jwt
  | .compact t =>
    if t.alg ∈ algorithms then
      if t.sig = macSign secret t.alg t.payload then
        match validateClaims now t.payload with
        | .ok _ => .ok t.payload
        | .error e => .error e
      else .error .jwt
    else .error .jwt

/-- Default ttl: `expires_delta or timedelta(minutes=settings.ACCESS_TOKEN_EXPIRE_MINUTES)`,
in seconds. -/
def tokenTtl (expires_delta : Option Nat) : Nat :=
  expires_delta.getD (settings.ACCESS_TOKEN_EXPIRE_MINUTES * 60)

/-- `create_access_token(data, expires_delta)` from `src/core/security.py`,
at clock `now` (epoch seconds): copies the claims, coerces a present
non-`None` `sub` through `str(...)`, computes `expire = utcnow() + ttl`,
stores `int(expire.timestamp())` under `"exp"`, and signs with the
configured secret and algorithm. -/
def create_access_token (now : Nat) (data : Claims) (expires_delta : Option Nat) :
    TokenWire :=
  let to_encode := data
  let to_encode :=
    match dictLookup "sub" to_encode with
    | some .null => to_encode
    | some v => dictSet "sub" (.str (pyStr v)) to_encode
    | none => to_encode
  let expire : Nat := now + tokenTtl expires_delta
  let to_encode := dictSet "exp" (.int (expire : Int)) to_encode
  .compact ⟨settings.ALGORITHM, to_encode,
    macSign settings.SECRET_KEY settings.ALGORITHM to_encode⟩

/-- `verify_access_token(token)` from `src/core/security.py` at clock
`now`: decodes with the configured secret and the singleton algorithm
list; any `ExpiredSignatureError` or `JWTError` yields `None`. -/
def verify_access_token (now : Nat) (token : TokenWire) : Option Claims :=
  match jwtDecode settings.SECRET_KEY [settings.ALGORITHM] now token with
  | .ok payload => some payload
  | .error _ => none

/-- Python string falsiness / length helpers: `[a-z]` search from
`validate_password_strength`. -/
def hasLower (p : String) : Bool := p.data.any (fun c => 'a' ≤ c && c ≤ 'z')

/-- `[A-Z]` search from `validate_password_strength`. -/
def hasUpper (p : String) : Bool := p.data.any (fun c => 'A' ≤ c && c ≤ 'Z')

/-- `\d` search from `validate_password_strength` (decimal digits). -/
def hasDigit (p : String) : Bool := p.data.any (fun c => '0' ≤ c && c ≤ '9')

/-- The special-character set of the policy regex. -/
def specialChars : String := "!@#$%^&*(),.?\":\x7b\x7d|<>"

/-- Special-character search from `validate_password_strength`. -/
def hasSpecial (p : String) : Bool := p.data.any (fun c => specialChars.data.contains c)

/-- `validate_password_strength(password)` from `src/core/security.py`:
seven checks in source order, short-circuiting on the first failure. -/
def validate_password_strength (password : String) : Bool × Option String :=
  if password.isEmpty then
    (false, some "La contraseña no puede estar vacía")
  else if password.length < 8 then
    (false, some "La contraseña debe tener al menos 8 caracteres")
  else if password.length > 128 then
    (false, some "La contraseña no puede exceder 128 caracteres")
  else if !hasLower password then
    (false, some "La contraseña debe contener al menos una letra minúscula")
  else if !hasUpper password then
    (false, some "La contraseña debe contener al menos una letra mayúscula")
  else if !hasDigit password then
    (false, some "La contraseña debe contener al menos un número")
  else if !hasSpecial password then
    (false, some "La contraseña debe contener al menos un carácter especial")
  else
    (true, none)

/-- The password policy as an ordered rule list (check, reason), in the
order the source applies them. -/
def passwordRules : List ((String → Bool) × String) :=
  [(fun p => p.isEmpty, "La contraseña no puede estar vacía"),
   (fun p => decide (p.length < 8), "La contraseña debe tener al menos 8 caracteres"),
   (fun p => decide (p.length > 128), "La contraseña no puede exceder 128 caracteres"),
   (fun p => !hasLower p, "La contraseña debe contener al menos una letra minúscula"),
   (fun p => !hasUpper p, "La contraseña debe contener al menos una letra mayúscula"),
   (fun p => !hasDigit p, "La contraseña debe contener al menos un número"),
   (fun p => !hasSpecial p, "La contraseña debe contener al menos un carácter especial")]

/-- The first rule of the ordered policy that the password violates, if
any. -/
def firstFailingReason (p : String) : Option String :=
  (passwordRules.find? (fun r => r.1 p)).map (fun r => r.2)

/-- bcrypt ignores everything beyond 72 bytes of the secret; modelled as a
72-character truncation. -/
def bcryptTruncate (p : String) : String := ⟨p.data.take 72⟩

/-- Abstract model of the bcrypt digest: a deterministic one-way tag of
the work factor, the salt, and the truncated secret (collisions are not
modelled). -/
def bcryptDigest (rounds : Nat) (salt : String) (p : String) : String :=
  toString rounds ++ ":" ++ salt ++ ":" ++ bcryptTruncate p

/-- Parsed form of a bcrypt modular-crypt hash string
(`$2b$<rounds>$<salt><digest>`); the empty hash string is represented by
`Option.none` at use sites. -/
structure BcryptHash where
  scheme : String
  rounds : Nat
  salt : String
  digest : String
  deriving DecidableEq

/-- `pwd_context.hash` under the configured `bcrypt__rounds=12`, at a
given (random, per-call) salt. -/
def pwdContextHash (salt : String) (p : String) : BcryptHash :=
  ⟨"2b", 12, salt, bcryptDigest 12 salt p⟩

/-- `pwd_context.verify`: recompute the digest from the parameters stored
in the hash and compare. -/
def pwdContextVerify (p : String) (h : BcryptHash) : Bool :=
  h.digest == bcryptDigest h.rounds h.salt p

/-- Outcome of one call to the underlying passlib/bcrypt primitive: a
hash, or a raised backend error. -/
inductive HashOutcome where
  | ok (h : BcryptHash)
  | failure (msg : String)

/-- The healthy bcrypt backend at a given salt (the primitive never
raises). -/
def bcryptBackend (salt : String) : String → HashOutcome :=
  fun p => .ok (pwdContextHash salt p)

/-- `hash_password(password)` from `src/core/security.py`: raises
`ValueError("La contraseña no puede estar vacía")` when the password is
empty or whitespace-only, otherwise calls `pwd_context.hash` (whose own
failure propagates as an exception). `Except.error` models the raised
exception's message. -/
def hash_password (backend : String → HashOutcome) (password : String) :
    Except String BcryptHash :=
  if password = "" ∨ pyStrip password = "" then
    .error "La contraseña no puede estar vacía"
  else
    match backend password with
    | .ok h => .ok h
    | .failure m => .error m

/-- `verify_password(plain_password, hashed_password)` from
`src/core/security.py`: returns `False` on an empty plain password or an
empty stored hash, otherwise delegates to `pwd_context.verify`. -/
def verify_password (plain_password : String) (hashed_password : Option BcryptHash) :
    Bool :=
  match hashed_password with
  | none => false
  | some h => if plain_password.isEmpty then false else pwdContextVerify plain_password h

/-- `hash_password_with_validation(password)` from `src/core/security.py`:
validates first, hashes only on success, and catches any exception from
`hash_password`, returning an empty hash (`none`) together with
`"Error al hashear la contraseña: " ++ str(e)`. -/
def hash_password_with_validation (backend : String → HashOutcome)
    (password : String) : Option BcryptHash × Option String :=
  match validate_password_strength password with
  | (false, error_message) => (none, error_message)
  | (true, _) =>
    match hash_password backend password with
    | .ok hashed => (some hashed, none)
    | .error e => (none, some ("Error al hashear la contraseña: " ++ e))

/-- The principal as the Auth core reads it (`src/models/model.py`): id
and active flag. -/
structure User where
  id : Int
  is_active : Bool
  deriving DecidableEq

/-- A raised FastAPI `HTTPException`: status code and detail string. -/
structure HTTPException where
  status_code : Nat
  detail : String
  deriving DecidableEq

/-- `fastapi.security.HTTPAuthorizationCredentials`: the parsed scheme and
bearer token. -/
structure HTTPAuthorizationCredentials where
  scheme : String
  credentials : TokenWire
  deriving DecidableEq

/-- An inbound request as the security dependency sees it: an optional
`Authorization` header, already split into scheme and token value. -/
structure Request where
  authorization : Option (String × TokenWire)
  deriving DecidableEq

/-- `fastapi.security.HTTPBearer.__call__`: with `auto_error` (the default
`True` in `security = HTTPBearer()` of `src/core/auth.py`), a missing
header or a non-Bearer scheme raises HTTP 403; with `auto_error=False` it
would return `None` instead. -/
def httpBearer (auto_error : Bool) (req : Request) :
    Except HTTPException (Option HTTPAuthorizationCredentials) :=
  match req.authorization with
  | none =>
    if auto_error then .error ⟨403, "Not authenticated"⟩ else .ok none
  | some (scheme, token) =>
    if scheme.toLower ≠ "bearer" then
      if auto_error then .error ⟨403, "Invalid authentication credentials"⟩ else .ok none
    else .ok (some ⟨scheme, token⟩)

/-- The `security = HTTPBearer()` dependency of `src/core/auth.py` keeps
the constructor's default `auto_error=True`. -/
def securityAutoError : Bool := true

/-- `get_current_user(credentials, db)` from `src/core/auth.py`, with the
database session abstracted to the principal lookup
`UserRepository.get_by_id` (`src/repositories/users/user_repository.py`):
a function from the looked-up key to an optional `User`.  `Except.error`
models the raised `HTTPException`.  Note the lookup key is whatever value
`payload.get("sub")` holds — the `Optional[int]` annotation in the source
does not convert it. -/
def get_current_user (get_by_id : ClaimValue → Option User) (now : Nat)
    (credentials : HTTPAuthorizationCredentials) : Except HTTPException User :=
  let token := credentials.credentials
  match verify_access_token now token with
  | none => .error ⟨401, "Token inválido o expirado"⟩
  | some payload =>
    let user_id := dictGet "sub" payload
    if user_id = .null then
      .error ⟨401, "Token inválido: falta ID de usuario"⟩
    else
      match get_by_id user_id with
      | none => .error ⟨401, "Usuario no encontrado"⟩
      | some user =>
        if !user.is_active then .error ⟨401, "Usuario inactivo"⟩
        else .ok user

/-- The principal-lookup tail of `get_current_user` (its lines from the
`user_repository.get_by_id(user_id)` call onward), as a function of the
key value actually passed to the repository. -/
def principalLookupStep (get_by_id : ClaimValue → Option User)
    (user_id : ClaimValue) : Except HTTPException User :=
  match get_by_id user_id with
  | none => .error ⟨401, "Usuario no encontrado"⟩
  | some user =>
    if !user.is_active then .error ⟨401, "Usuario inactivo"⟩
    else .ok user

/-- `get_current_user_optional(credentials, db)` from `src/core/auth.py`:
`None` credentials yield `None`; otherwise delegate to `get_current_user`
and swallow any `HTTPException` into `None`. -/
def get_current_user_optional (get_by_id : ClaimValue → Option User) (now : Nat)
    (credentials : Option HTTPAuthorizationCredentials) :
    Except HTTPException (Option User) :=
  match credentials with
  | none => .ok none
  | some c =>
    match get_current_user get_by_id now c with
    | .ok u => .ok (some u)
    | .error _ => .ok none

/-- The full optional-resolution chain as FastAPI wires it: the
`Depends(security)` dependency (`HTTPBearer()` with its default
`auto_error=True`) runs first, and only if it does not raise is
`get_current_user_optional` entered. -/
def resolveOptionalEndpoint (get_by_id : ClaimValue → Option User) (now : Nat)
    (req : Request) : Except HTTPException (Option User) :=
  match httpBearer securityAutoError req with
  | .error e => .error e
  | .ok credentials => get_current_user_optional get_by_id now credentials

/-- A present `iat` claim is `int()`-coercible (or absent). -/
def iatOk (p : Claims) : Bool :=
  match dictLookup "iat" p with
  | none => true
  | some v => (pyIntCoerce v).isSome

/-- A present `nbf` claim is `int()`-coercible and not in the future at
clock `now` (or absent). -/
def nbfOk (now : Nat) (p : Claims) : Bool :=
  match dictLookup "nbf" p with
  | none => true
  | some v =>
    match pyIntCoerce v with
    | none => false
    | some nbf => decide (nbf ≤ (now : Int))

/-- A present `exp` claim is `int()`-coercible (or absent); whether its
value is in the past is `expiredPayload`. -/
def expCoercibleOk (p : Claims) : Bool :=
  match dictLookup "exp" p with
  | none => true
  | some v => (pyIntCoerce v).isSome

/-- No `aud` claim is present (any present one is rejected when decoding
without an `audience` argument). -/
def audOk (p : Claims) : Bool := (dictLookup "aud" p).isNone

/-- A present `sub` claim is a string (or absent). -/
def subOk (p : Claims) : Bool :=
  match dictLookup "sub" p with
  | none => true
  | some (.str _) => true
  | some _ => false

/-- A present `jti` claim is a string (or absent). -/
def jtiOk (p : Claims) : Bool :=
  match dictLookup "jti" p with
  | none => true
  | some (.str _) => true
  | some _ => false

/-- No `at_hash` claim is present (any present one is rejected when
decoding without an access token). -/
def atHashOk (p : Claims) : Bool := (dictLookup "at_hash" p).isNone

/-- The payload carries an `int()`-coercible `exp` lying strictly in the
past at clock `now`. -/
def expiredPayload (now : Nat) (p : Claims) : Bool :=
  match dictLookup "exp" p with
  | none => false
  | some v =>
    match pyIntCoerce v with
    | none => false
    | some e => decide (e < (now : Int))

/-- The payload carried by a compact token (junk tokens carry nothing). -/
def tokenPayload : TokenWire → Claims
  | .malformed _ => []
  | .compact t => t.payload

/-- The claims body `create_access_token` signs, before the `exp` entry is
merged: the input with a present, non-`None` `sub` coerced to a string. -/
def encodedBody (data : Claims) : Claims :=
  match dictLookup "sub" data with
  | some .null => data
  | some v => dictSet "sub" (.str (pyStr v)) data
  | none => data

theorem dictLookup_dictSet_self (k : String) (v : ClaimValue) (c : Claims) :
    dictLookup k (dictSet k v c) = some v := by
  induction c with
  | nil => simp [dictSet, dictLookup]
  | cons hd tl ih =>
    obtain ⟨k', v'⟩ := hd
    by_cases h : k' = k
    · simp [dictSet, dictLookup, h]
    · simp [dictSet, dictLookup, h, ih]

theorem dictLookup_dictSet_ne (k k' : String) (v : ClaimValue) (c : Claims)
    (h : k' ≠ k) : dictLookup k' (dictSet k v c) = dictLookup k' c := by
  have h' : k ≠ k' := fun hh => h hh.symm
  induction c with
  | nil => simp [dictSet, dictLookup, h']
  | cons hd tl ih =>
    obtain ⟨k₀, v₀⟩ := hd
    by_cases h0 : k₀ = k
    · subst h0
      simp [dictSet, dictLookup, h']
    · by_cases h1 : k₀ = k'
      · simp [dictSet, dictLookup, h0, h1, h]
      · simp [dictSet, dictLookup, h0, h1, ih]

theorem create_access_token_eq (now : Nat) (data : Claims) (d : Option Nat) :
    create_access_token now data d =
      .compact ⟨settings.ALGORITHM,
        dictSet "exp" (.int ((now + tokenTtl d : Nat) : Int)) (encodedBody data),
        macSign settings.SECRET_KEY settings.ALGORITHM
          (dictSet "exp" (.int ((now + tokenTtl d : Nat) : Int)) (encodedBody data))⟩ := by
  unfold create_access_token encodedBody
  rfl

theorem encodedBody_of_int_sub (data : Claims) (n : Int)
    (hsub : dictLookup "sub" data = some (.int n)) :
    encodedBody data = dictSet "sub" (.str (toString n)) data := by
  unfold encodedBody
  rw [hsub]
  rfl

theorem validateIat_ok_iff (p : Claims) :
    validateIat p = .ok () ↔ iatOk p = true := by
  unfold validateIat iatOk
  cases h : dictLookup "iat" p with
  | none => simp
  | some v => cases hc : pyIntCoerce v <;> simp [hc]

theorem validateNbf_ok_iff (now : Nat) (p : Claims) :
    validateNbf now p = .ok () ↔ nbfOk now p = true := by
  unfold validateNbf nbfOk
  cases h : dictLookup "nbf" p with
  | none => simp
  | some v =>
    cases hc : pyIntCoerce v with
    | none => simp [hc]
    | some nbf =>
      by_cases hlt : (now : Int) < nbf <;> simp [hc, hlt]
      all_goals omega

theorem validateExp_ok_iff (now : Nat) (p : Claims) :
    validateExp now p = .ok ()
      ↔ (expCoercibleOk p = true ∧ expiredPayload now p = false) := by
  unfold validateExp expCoercibleOk expiredPayload
  cases h : dictLookup "exp" p with
  | none => simp
  | some v =>
    cases hc : pyIntCoerce v with
    | none => simp [hc]
    | some e => by_cases hlt : e < (now : Int) <;> simp [hc, hlt]

theorem validateAud_ok_iff (p : Claims) :
    validateAud p = .ok () ↔ audOk p = true := by
  unfold validateAud audOk
  cases h : dictLookup "aud" p <;> simp [h]

theorem validateSub_ok_iff (p : Claims) :
    validateSub p = .ok () ↔ subOk p = true := by
  unfold validateSub subOk
  cases h : dictLookup "sub" p with
  | none => simp [h]
  | some v => cases v <;> simp [h]

theorem validateJti_ok_iff (p : Claims) :
    validateJti p = .ok () ↔ jtiOk p = true := by
  unfold validateJti jtiOk
  cases h : dictLookup "jti" p with
  | none => simp [h]
  | some v => cases v <;> simp [h]

theorem validateAtHash_ok_iff (p : Claims) :
    validateAtHash p = .ok () ↔ atHashOk p = true := by
  unfold validateAtHash atHashOk
  cases h : dictLookup "at_hash" p <;> simp [h]

theorem validateClaims_ok_iff (now : Nat) (p : Claims) :
    validateClaims now p = .ok ()
      ↔ (validateIat p = .ok () ∧ validateNbf now p = .ok ()
          ∧ validateExp now p = .ok () ∧ validateAud p = .ok ()
          ∧ validateSub p = .ok () ∧ validateJti p = .ok ()
          ∧ validateAtHash p = .ok ()) := by
  unfold validateClaims
  cases h1 : validateIat p <;> cases h2 : validateNbf now p <;>
    cases h3 : validateExp now p <;> cases h4 : validateAud p <;>
    cases h5 : validateSub p <;> cases h6 : validateJti p <;> simp_all

theorem validateClaims_ok_pred (now : Nat) (p : Claims) :
    validateClaims now p = .ok ()
      ↔ ((iatOk p && nbfOk now p && expCoercibleOk p && audOk p && subOk p &&
          jtiOk p && atHashOk p) = true ∧ expiredPayload now p = false) := by
  rw [validateClaims_ok_iff, validateIat_ok_iff, validateNbf_ok_iff,
    validateExp_ok_iff, validateAud_ok_iff, validateSub_ok_iff,
    validateJti_ok_iff, validateAtHash_ok_iff]
  simp only [Bool.and_eq_true]
  tauto

theorem verify_create_fresh (now : Nat) (data : Claims) (d : Option Nat)
    (now2 : Nat) (n : Int)
    (hsub : dictLookup "sub" data = some (.int n))
    (hfresh : now2 ≤ now + tokenTtl d)
    (hiat : iatOk data = true) (hnbf : nbfOk now2 data = true)
    (haud : audOk data = true) (hjti : jtiOk data = true)
    (hat : atHashOk data = true) :
    verify_access_token now2 (create_access_token now data d)
      = some (dictSet "exp" (.int ((now + tokenTtl d : Nat) : Int))
          (dictSet "sub" (.str (toString n)) data)) := by
  rw [create_access_token_eq, encodedBody_of_int_sub data n hsub]
  have htrans : ∀ k, k ≠ "sub" → k ≠ "exp" →
      dictLookup k (dictSet "exp" (.int ((now + tokenTtl d : Nat) : Int))
        (dictSet "sub" (.str (toString n)) data)) = dictLookup k data := by
    intro k hks hke
    rw [dictLookup_dictSet_ne _ _ _ _ hke, dictLookup_dictSet_ne _ _ _ _ hks]
  have hv : validateClaims now2
      (dictSet "exp" (.int ((now + tokenTtl d : Nat) : Int))
        (dictSet "sub" (.str (toString n)) data)) = .ok () := by
    rw [validateClaims_ok_pred]
    constructor
    · have h1 : iatOk (dictSet "exp" (.int ((now + tokenTtl d : Nat) : Int))
          (dictSet "sub" (.str (toString n)) data)) = iatOk data := by
        unfold iatOk
        rw [htrans "iat" (by decide) (by decide)]
      have h2 : nbfOk now2 (dictSet "exp" (.int ((now + tokenTtl d : Nat) : Int))
          (dictSet "sub" (.str (toString n)) data)) = nbfOk now2 data := by
        unfold nbfOk
        rw [htrans "nbf" (by decide) (by decide)]
      have h3 : expCoercibleOk (dictSet "exp" (.int ((now + tokenTtl d : Nat) : Int))
          (dictSet "sub" (.str (toString n)) data)) = true := by
        unfold expCoercibleOk
        rw [dictLookup_dictSet_self]
        rfl
      have h4 : audOk (dictSet "exp" (.int ((now + tokenTtl d : Nat) : Int))
          (dictSet "sub" (.str (toString n)) data)) = audOk data := by
        unfold audOk
        rw [htrans "aud" (by decide) (by decide)]
      have h5 : subOk (dictSet "exp" (.int ((now + tokenTtl d : Nat) : Int))
          (dictSet "sub" (.str (toString n)) data)) = true := by
        unfold subOk
        rw [dictLookup_dictSet_ne _ _ _ _ (by decide), dictLookup_dictSet_self]
      have h6 : jtiOk (dictSet "exp" (.int ((now + tokenTtl d : Nat) : Int))
          (dictSet "sub" (.str (toString n)) data)) = jtiOk data := by
        unfold jtiOk
        rw [htrans "jti" (by decide) (by decide)]
      have h7 : atHashOk (dictSet "exp" (.int ((now + tokenTtl d : Nat) : Int))
          (dictSet "sub" (.str (toString n)) data)) = atHashOk data := by
        unfold atHashOk
        rw [htrans "at_hash" (by decide) (by decide)]
      rw [h1, h2, h3, h4, h5, h6, h7, hiat, hnbf, haud, hjti, hat]
      rfl
    · unfold expiredPayload
      rw [dictLookup_dictSet_self]
      simp only [pyIntCoerce, decide_eq_false_iff_not]
      push_cast
      omega
  simp only [verify_access_token, jwtDecode, List.mem_singleton,
    eq_self_iff_true, if_true, hv]

/-- C1 counterexample: the claims mapping `{"sub": 42, "aud": "x"}` has a
numeric `sub`, yet create-then-verify (immediately, well before expiry,
same secret and algorithm) returns no claims, because jose's default
validation rejects any `aud` claim when decoding without an `audience`
argument — refuting round-trip success for every numeric-`sub` mapping. -/
theorem token_roundtrip_numeric_sub_c1_counterexample :
    dictLookup "sub" [("sub", ClaimValue.int 42), ("aud", ClaimValue.str "x")]
        = some (ClaimValue.int 42)
      ∧ verify_access_token 0 (create_access_token 0
          [("sub", ClaimValue.int 42), ("aud", ClaimValue.str "x")] none) = none := by
  decide

/-- C1 (amended): for every claims mapping with a numeric `sub` whose
remaining claims survive jose's default registered-claim validation (no
`aud` or `at_hash` entry, any `jti` a string, any `iat` integer-coercible,
any `nbf` integer-coercible and not in the future at verification time),
creating an access token and verifying it before expiry (same secret and
algorithm) succeeds and returns claims whose `sub` is the string form of
the original number, with every other caller-supplied claim unchanged. -/
theorem token_roundtrip_numeric_sub_c1 (data : Claims) (n : Int) (now : Nat)
    (expires_delta : Option Nat) (now2 : Nat)
    (hsub : dictLookup "sub" data = some (ClaimValue.int n))
    (hfresh : now2 ≤ now + tokenTtl expires_delta)
    (hiat : iatOk data = true) (hnbf : nbfOk now2 data = true)
    (haud : audOk data = true) (hjti : jtiOk data = true)
    (hat : atHashOk data = true) :
    ∃ p, verify_access_token now2 (create_access_token now data expires_delta) = some p
      ∧ dictLookup "sub" p = some (ClaimValue.str (toString n))
      ∧ ∀ k, k ≠ "sub" → k ≠ "exp" → dictLookup k p = dictLookup k data := by
  refine ⟨dictSet "exp" (.int ((now + tokenTtl expires_delta : Nat) : Int))
    (dictSet "sub" (.str (toString n)) data), ?_, ?_, ?_⟩
  · exact verify_create_fresh now data expires_delta now2 n hsub hfresh
      hiat hnbf haud hjti hat
  · rw [dictLookup_dictSet_ne _ _ _ _ (by decide), dictLookup_dictSet_self]
  · intro k hks hke
    rw [dictLookup_dictSet_ne _ _ _ _ hke, dictLookup_dictSet_ne _ _ _ _ hks]

/-- Witness for the amended C1 at a concrete claims mapping with
`sub = 42` and one extra claim. -/
theorem token_roundtrip_numeric_sub_c1_witness :
    ∃ p, verify_access_token 0 (create_access_token 0
        [("sub", ClaimValue.int 42), ("role", ClaimValue.str "admin")] none) = some p
      ∧ dictLookup "sub" p = some (ClaimValue.str (toString (42 : Int)))
      ∧ ∀ k, k ≠ "sub" → k ≠ "exp" →
          dictLookup k p
            = dictLookup k [("sub", ClaimValue.int 42), ("role", ClaimValue.str "admin")] :=
  token_roundtrip_numeric_sub_c1
    [("sub", ClaimValue.int 42), ("role", ClaimValue.str "admin")] 42 0 none 0
    (by rfl) (Nat.zero_le _) (by decide) (by decide) (by decide) (by decide)
    (by decide)

/-- C5: the issued token stores the expiry under `"exp"` as the integer
number of epoch seconds `now + ttl` (the `ClaimValue.int` constructor, not
a string or a fractional value), where the ttl defaults to the configured
`ACCESS_TOKEN_EXPIRE_MINUTES` minutes when omitted. -/
theorem exp_integer_epoch_seconds_c5 (now : Nat) (data : Claims)
    (expires_delta : Option Nat) :
    dictLookup "exp" (tokenPayload (create_access_token now data expires_delta))
        = some (ClaimValue.int ((now + tokenTtl expires_delta : Nat) : Int))
      ∧ tokenTtl none = settings.ACCESS_TOKEN_EXPIRE_MINUTES * 60 := by
  constructor
  · rw [create_access_token_eq]
    simp only [tokenPayload]
    exact dictLookup_dictSet_self _ _ _
  · rfl

theorem pyStrip_eq_empty_iff (p : String) :
    pyStrip p = "" ↔ p.data.all isPySpace = true := by
  unfold pyStrip
  constructor
  · intro h
    have h0 : ((p.data.dropWhile isPySpace).reverse.dropWhile isPySpace).reverse
        = ([] : List Char) := by
      have := congrArg String.data h
      simpa using this
    have h1 : (p.data.dropWhile isPySpace).reverse.dropWhile isPySpace = [] := by
      simpa using congrArg List.reverse h0
    rw [List.dropWhile_eq_nil_iff] at h1
    rw [List.all_eq_true]
    intro x hx
    have hx' : x ∈ p.data.takeWhile isPySpace ++ p.data.dropWhile isPySpace := by
      rw [List.takeWhile_append_dropWhile]
      exact hx
    rcases List.mem_append.mp hx' with htw | hdw
    · exact List.mem_takeWhile_imp htw
    · exact h1 x (List.mem_reverse.mpr hdw)
  · intro h
    have hall : ∀ x ∈ p.data, isPySpace x := List.all_eq_true.mp h
    have h1 : p.data.dropWhile isPySpace = [] :=
      List.dropWhile_eq_nil_iff.mpr hall
    rw [h1]
    rfl

theorem pyspace_not_lower (c : Char) (h : isPySpace c = true) : ¬ ('a' ≤ c) := by
  unfold isPySpace at h
  simp only [Bool.or_eq_true, decide_eq_true_eq] at h
  rcases h with ((((h | h) | h) | h) | h) | h <;> subst h <;> decide

theorem validStrength_hasLower (p : String)
    (h : validate_password_strength p = (true, none)) : hasLower p = true := by
  unfold validate_password_strength at h
  split_ifs at h with h1 h2 h3 h4 h5 h6 h7 <;> simp_all

theorem validStrength_not_blank (p : String)
    (h : validate_password_strength p = (true, none)) :
    ¬ (p = "" ∨ pyStrip p = "") := by
  have hlow := validStrength_hasLower p h
  unfold hasLower at hlow
  obtain ⟨c, hmem, hc⟩ := List.any_eq_true.mp hlow
  have hle : 'a' ≤ c := of_decide_eq_true ((Bool.and_eq_true _ _).mp hc).1
  rintro (hempty | hstrip)
  · subst hempty
    simp at hmem
  · have hall := List.all_eq_true.mp ((pyStrip_eq_empty_iff p).mp hstrip)
    exact pyspace_not_lower c (hall c hmem) hle

/-- C6: the password checks run in the fixed source order — empty, too
short, too long, missing lowercase, missing uppercase, missing digit,
missing special — and a failing password is reported with exactly the
first failing reason of that order; in particular `"abcdefgh"` fails with
the missing-uppercase reason. -/
theorem validate_first_failing_rule_c6 :
    (∀ p, validate_password_strength p =
      match firstFailingReason p with
      | some r => (false, some r)
      | none => (true, none))
    ∧ validate_password_strength "abcdefgh"
        = (false, some "La contraseña debe contener al menos una letra mayúscula") := by
  constructor
  · intro p
    unfold validate_password_strength firstFailingReason passwordRules
    split_ifs with h1 h2 h3 h4 h5 h6 h7 <;> simp [List.find?, *]
  · decide

/-- C7: every password satisfying the full strength policy hashes
successfully and the produced hash verifies against the same password. -/
theorem password_policy_roundtrip_c7 (salt : String) (p : String)
    (hvalid : validate_password_strength p = (true, none)) :
    hash_password (bcryptBackend salt) p = .ok (pwdContextHash salt p)
      ∧ verify_password p (some (pwdContextHash salt p)) = true := by
  have hblank := validStrength_not_blank p hvalid
  have hne : p ≠ "" := fun h => hblank (Or.inl h)
  constructor
  · unfold hash_password
    rw [if_neg hblank]
    rfl
  · unfold verify_password
    have hie : p.isEmpty = false := by
      rcases h : p.isEmpty with _ | _
      · rfl
      · exact absurd ((String.isEmpty_iff p).mp h) hne
    rw [hie]
    simp [pwdContextVerify, pwdContextHash]

/-- Witness for C7 at the concrete policy-satisfying password
`"Abcdef1!"`. -/
theorem password_policy_roundtrip_c7_witness :
    hash_password (bcryptBackend "S") "Abcdef1!" = .ok (pwdContextHash "S" "Abcdef1!")
      ∧ verify_password "Abcdef1!" (some (pwdContextHash "S" "Abcdef1!")) = true :=
  password_policy_roundtrip_c7 "S" "Abcdef1!" (by decide)

/-- C8: `hash_password` rejects exactly the blank or whitespace-only
passwords with the empty-password error, and hashes every other input;
the guard is its own, independent of strength validation. -/
theorem hash_password_blank_guard_c8 (salt : String) (p : String) :
    hash_password (bcryptBackend salt) p =
      if p.data.all isPySpace then .error "La contraseña no puede estar vacía"
      else .ok (pwdContextHash salt p) := by
  unfold hash_password
  by_cases hall : p.data.all isPySpace = true
  · rw [if_pos hall, if_pos (Or.inr ((pyStrip_eq_empty_iff p).mpr hall))]
  · rw [if_neg hall, if_neg]
    · rfl
    · rintro (h | h)
      · subst h
        exact hall rfl
      · exact hall ((pyStrip_eq_empty_iff p).mp h)

/-- C9 counterexample: with a failing hash primitive on a strength-valid
password, `hash_password_with_validation` does not abort — it returns
normally with the empty hash (`none`) and an error message, so the claim
that the operation aborts rather than returning an empty hash is false. -/
theorem hash_failure_returns_empty_c9_counterexample :
    hash_password_with_validation (fun _ => HashOutcome.failure "boom") "Abcdef1!"
      = (none, some "Error al hashear la contraseña: boom") := by decide

/-- C9 (amended): when the underlying hash primitive fails on a
strength-valid password, `hash_password_with_validation` catches the
exception and returns the empty hash together with the message
`"Error al hashear la contraseña: <detail>"`; it does not propagate the
failure. -/
theorem hash_failure_returns_empty_c9 (backend : String → HashOutcome) (p m : String)
    (hvalid : validate_password_strength p = (true, none))
    (hfail : backend p = .failure m) :
    hash_password_with_validation backend p
      = (none, some ("Error al hashear la contraseña: " ++ m)) := by
  unfold hash_password_with_validation
  rw [hvalid]
  unfold hash_password
  rw [if_neg (validStrength_not_blank p hvalid), hfail]

/-- Witness for the amended C9 at a concrete failing backend. -/
theorem hash_failure_returns_empty_c9_witness :
    hash_password_with_validation (fun _ => HashOutcome.failure "x") "Abcdef1!"
      = (none, some ("Error al hashear la contraseña: " ++ "x")) :=
  hash_failure_returns_empty_c9 (fun _ => HashOutcome.failure "x") "Abcdef1!" "x"
    (by decide) rfl

/-- C4 at its failing input: with no `Authorization` header, the optional
resolution chain raises HTTP 403 from the `HTTPBearer()` dependency
(whose default is `auto_error=True`) before `get_current_user_optional`
can convert the state to the anonymous outcome, contradicting the claim
(and the function's own docstring) that no error is raised. -/
theorem optional_resolution_missing_header_c4 :
    resolveOptionalEndpoint (fun _ => none) 0 ⟨none⟩
        = .error ⟨403, "Not authenticated"⟩
      ∧ resolveOptionalEndpoint (fun _ => none) 0 ⟨none⟩ ≠ .ok none := by
  constructor
  · rfl
  · decide

/-- C10 counterexample: a token issued from `{"sub": 42, "aud": "api"}`
has an integer subject, but mandatory resolution fails verification (401,
"Token inválido o expirado") and never reaches the principal lookup —
whereas the lookup step at the string key would have succeeded — so the
claim does not hold for every token issued with an integer subject. -/
theorem sub_string_passed_to_lookup_c10_counterexample :
    get_current_user (fun _ => some ⟨42, true⟩) 0
        ⟨"Bearer", create_access_token 0
          [("sub", ClaimValue.int 42), ("aud", ClaimValue.str "api")] none⟩
      = .error ⟨401, "Token inválido o expirado"⟩
    ∧ principalLookupStep (fun _ => some ⟨42, true⟩)
        (ClaimValue.str (toString (42 : Int))) = .ok ⟨42, true⟩ := by
  decide

/-- C10 (amended): for a token issued with an integer subject whose other
claims survive jose's default registered-claim validation (no `aud` or
`at_hash`, string `jti` if any, coercible `iat` if any, coercible and
non-future `nbf` if any), mandatory resolution reduces to the
principal-lookup step applied at the string-coerced subject
`ClaimValue.str (toString n)` — the value handed to
`UserRepository.get_by_id` is the string, never restored to an integer. -/
theorem sub_string_passed_to_lookup_c10 (get_by_id : ClaimValue → Option User)
    (data : Claims) (n : Int) (now : Nat) (expires_delta : Option Nat) (now2 : Nat)
    (scheme : String)
    (hsub : dictLookup "sub" data = some (ClaimValue.int n))
    (hfresh : now2 ≤ now + tokenTtl expires_delta)
    (hiat : iatOk data = true) (hnbf : nbfOk now2 data = true)
    (haud : audOk data = true) (hjti : jtiOk data = true)
    (hat : atHashOk data = true) :
    get_current_user get_by_id now2 ⟨scheme, create_access_token now data expires_delta⟩
      = principalLookupStep get_by_id (ClaimValue.str (toString n)) := by
  unfold get_current_user
  dsimp only
  rw [verify_create_fresh now data expires_delta now2 n hsub hfresh
    hiat hnbf haud hjti hat]
  have hgets : dictGet "sub"
      (dictSet "exp" (.int ((now + tokenTtl expires_delta : Nat) : Int))
        (dictSet "sub" (.str (toString n)) data)) = .str (toString n) := by
    unfold dictGet
    rw [dictLookup_dictSet_ne _ _ _ _ (by decide), dictLookup_dictSet_self]
    rfl
  simp only [hgets]
  rw [if_neg (by simp)]
  rfl

/-- Witness for the amended C10 at `sub = 42` with a repository that
recognises only the string key `"42"`. -/
theorem sub_string_passed_to_lookup_c10_witness :
    get_current_user
        (fun v => if v = ClaimValue.str "42" then some ⟨42, true⟩ else none) 5
        ⟨"Bearer", create_access_token 0 [("sub", ClaimValue.int 42)] (some 10)⟩
      = principalLookupStep
          (fun v => if v = ClaimValue.str "42" then some ⟨42, true⟩ else none)
          (ClaimValue.str (toString (42 : Int))) :=
  sub_string_passed_to_lookup_c10
    (fun v => if v = ClaimValue.str "42" then some ⟨42, true⟩ else none)
    [("sub", ClaimValue.int 42)] 42 0 (some 10) 5 "Bearer" (by rfl) (by decide)
    (by decide) (by decide) (by decide) (by decide) (by decide)
